import Mathlib

/-!
# OpenGrammar: the text-processing request of app.go

A shallow embedding of App.ProcessText (src/app.go) and theorems about it.

Modelling conventions.
* A Go string is a Lean String; formatting and trimming work on its list of
  characters (String.data).  Go strings that are not valid UTF-8 are outside
  the model.
* Library calls with no code in the repository that only succeed or fail
  (json.Marshal, http.NewRequest, client.Do, io.ReadAll, json.Unmarshal) are the
  fields of an environment Env; an error value is represented by the text its
  Error method returns.
* The requests handed to client.Do are collected in a list returned next to the
  outcome, so that "no network request" is a statement about that list.
-/

namespace OpenGrammar

/-! ## Library functions used by ProcessText -/

/-- Go unicode.IsSpace: the Latin-1 space characters and the other code points
with the Unicode White_Space property. -/
def IsSpace (r : Char) : Bool :=
  let n := r.toNat
  decide ((9 ≤ n ∧ n ≤ 13) ∨ n = 0x20 ∨ n = 0x85 ∨ n = 0xA0 ∨ n = 0x1680 ∨
    (0x2000 ≤ n ∧ n ≤ 0x200A) ∨ n = 0x2028 ∨ n = 0x2029 ∨ n = 0x202F ∨
    n = 0x205F ∨ n = 0x3000)

/-- Go strings.TrimSpace: the string without its leading and trailing white space. -/
def TrimSpace (s : String) : String :=
  String.mk ((s.data.dropWhile IsSpace).reverse.dropWhile IsSpace).reverse

/-- An operand of a formatting call, with the type it has in the source. -/
inductive Operand where
  | str (s : String)
  | int (n : Int)
  | err (msg : String)

/-- Text printed for an operand by its verb: a string by %s as it is, an int by
%d in decimal, an error by %v as its Error text. -/
def Operand.text : Operand → String
  | .str s => s
  | .int n => toString n
  | .err msg => msg

/-- The verbs that occur in the format strings of app.go. -/
def isVerb (c : Char) : Bool := c = 's' || c = 'd' || c = 'v'

/-- Expansion of a format string: each verb is replaced by the text of the next
operand, every other character is copied; a verb with no operand left prints
as %!verb(MISSING).  Operands are never scanned again.  Every call in app.go
passes exactly as many operands as its format has verbs. -/
def Sprintf.expand : List Char → List Operand → List Char
  | [], _ => []
  | [c], _ => [c]
  | c :: v :: rest, args =>
    if c = '%' ∧ isVerb v = true then
      match args with
      | a :: args' => a.text.data ++ Sprintf.expand rest args'
      | [] => '%' :: '!' :: v :: "(MISSING)".data ++ Sprintf.expand rest []
    else c :: Sprintf.expand (v :: rest) args

/-- Go fmt.Sprintf, for the verbs %s, %d and %v. -/
def Sprintf (format : String) (args : List Operand) : String :=
  String.mk (Sprintf.expand format.data args)

/-! ## Prompt templates (the raw string literals of the switch on actionType) -/

/-- Format string of case "grammar", language "id". -/
def grammarId : String :=
  "%sAnalisis teks berikut untuk masalah tata bahasa, ejaan, dan gaya penulisan.\n\nTeks yang akan dianalisis:\n\"%s\"\n\nHarap berikan respons dalam format yang tepat ini:\n\nANALISIS:\n[Daftar masalah tata bahasa, ejaan, dan gaya yang ditemukan. Jika tidak ada masalah, tulis \"Tidak ada masalah yang terdeteksi.\"]\n\nTEKS YANG DIPERBAIKI:\n[Berikan versi teks yang telah diperbaiki dengan semua masalah diperbaiki]"

/-- Format string of case "grammar", other languages. -/
def grammarEn : String :=
  "%sAnalyze the following text for grammar, spelling, and style issues.\n\nText to analyze:\n\"%s\"\n\nPlease respond in this exact format:\n\nANALYSIS:\n[List specific grammar, spelling, and style issues found. If none found, write \"No issues detected.\"]\n\nCORRECTED TEXT:\n[Provide the corrected version of the text with all issues fixed]"

/-- Format string of case "improve", language "id". -/
def improveId : String :=
  "%sTingkatkan teks berikut dengan meningkatkan kejelasan, alur, dan kualitas secara keseluruhan sambil mempertahankan makna aslinya.\n\nTeks asli:\n\"%s\"\n\nHarap berikan respons dalam format yang tepat ini:\n\nPERBAIKAN YANG DILAKUKAN:\n[Daftar perbaikan dan peningkatan spesifik yang dilakukan pada teks]\n\nTEKS YANG DITINGKATKAN:\n[Berikan versi teks yang telah ditingkatkan]"

/-- Format string of case "improve", other languages. -/
def improveEn : String :=
  "%sImprove the following text by enhancing clarity, flow, and overall quality while maintaining the original meaning.\n\nOriginal text:\n\"%s\"\n\nPlease respond in this exact format:\n\nIMPROVEMENTS MADE:\n[List the specific improvements and enhancements made to the text]\n\nIMPROVED TEXT:\n[Provide the enhanced version of the text]"

/-- Format string of case "rephrase", language "id". -/
def rephraseId : String :=
  "%sParafrase teks berikut menggunakan kata-kata dan struktur kalimat yang berbeda sambil mempertahankan makna yang sama.\n\nTeks asli:\n\"%s\"\n\nHarap berikan respons dalam format yang tepat ini:\n\nCATATAN PARAFRASA:\n[Penjelasan singkat tentang pendekatan parafrasa yang digunakan]\n\nTEKS YANG DIPARAFRASA:\n[Berikan versi teks yang telah diparafrasa]"

/-- Format string of case "rephrase", other languages. -/
def rephraseEn : String :=
  "%sRephrase the following text using different words and sentence structures while keeping the same meaning.\n\nOriginal text:\n\"%s\"\n\nPlease respond in this exact format:\n\nREPHRASING NOTES:\n[Brief explanation of the rephrasing approach used]\n\nREPHRASED TEXT:\n[Provide the rephrased version of the text]"

/-- Format string of case "formal", language "id". -/
def formalId : String :=
  "%sTulis ulang teks berikut dengan nada yang lebih formal dan profesional yang cocok untuk konteks bisnis atau akademik.\n\nTeks asli:\n\"%s\"\n\nHarap berikan respons dalam format yang tepat ini:\n\nCATATAN FORMALISASI:\n[Jelaskan perubahan apa yang dilakukan untuk membuat teks lebih formal]\n\nTEKS FORMAL:\n[Berikan versi formal dari teks]"

/-- Format string of case "formal", other languages. -/
def formalEn : String :=
  "%sRewrite the following text in a more formal, professional tone suitable for business or academic contexts.\n\nOriginal text:\n\"%s\"\n\nPlease respond in this exact format:\n\nFORMALIZATION NOTES:\n[Explain what changes were made to make the text more formal]\n\nFORMAL TEXT:\n[Provide the formal version of the text]"

/-- Format string of case "detailed", language "id". -/
def detailedId : String :=
  "%sKembangkan teks berikut dengan menambahkan lebih banyak detail, penjelasan, dan konteks sambil mempertahankan keakuratan.\n\nTeks asli:\n\"%s\"\n\nHarap berikan respons dalam format yang tepat ini:\n\nDETAIL PENGEMBANGAN:\n[Jelaskan informasi dan detail tambahan apa yang ditambahkan]\n\nTEKS YANG DIPERLUAS:\n[Berikan versi teks yang diperluas dan lebih detail]"

/-- Format string of case "detailed", other languages. -/
def detailedEn : String :=
  "%sExpand the following text by adding more details, explanations, and context while maintaining accuracy.\n\nOriginal text:\n\"%s\"\n\nPlease respond in this exact format:\n\nEXPANSION DETAILS:\n[Explain what additional information and details were added]\n\nDETAILED TEXT:\n[Provide the expanded, more detailed version of the text]"

/-- Format string of the default case (custom instruction), language "id". -/
def customId : String :=
  "%sSilakan lakukan tindakan berikut pada teks yang diberikan:\n\nInstruksi: %s\n\nTeks yang akan diproses:\n\"%s\"\n\nHarap berikan respons dalam format yang tepat ini:\n\nANALISIS:\n[Penjelasan singkat tentang tindakan yang dilakukan]\n\nHASIL AKHIR:\n[Berikan hasil akhir dari tindakan yang diminta]"

/-- Format string of the default case (custom instruction), other languages. -/
def customEn : String :=
  "%sPlease perform the following action on the given text:\n\nInstruction: %s\n\nText to process:\n\"%s\"\n\nPlease respond in this exact format:\n\nANALYSIS:\n[Brief explanation of the action performed]\n\nFINAL RESULT:\n[Provide the final result of the requested action]"

/-! ## Data types of app.go -/

/-- One element of ClaudeResponse.Content; Typ is the Go field Type. -/
structure ContentBlock where
  Text : String
  Typ : String
deriving DecidableEq, Repr

/-- The Usage field of ClaudeResponse. -/
structure Usage where
  InputTokens : Int
  OutputTokens : Int
deriving DecidableEq, Repr

/-- ClaudeResponse represents the response from Claude API; Typ is the Go
field Type. -/
structure ClaudeResponse where
  Content : List ContentBlock
  ID : String
  Model : String
  Role : String
  StopReason : String
  StopSequence : String
  Typ : String
  Usage : Usage
deriving DecidableEq, Repr

/-- One element of ClaudeRequest.Messages. -/
structure Message where
  Role : String
  Content : String
deriving DecidableEq, Repr

/-- ClaudeRequest represents the request to Claude API. -/
structure ClaudeRequest where
  Model : String
  MaxTokens : Int
  Messages : List Message
deriving DecidableEq, Repr

/-- An http.Request as far as ProcessText builds it: method, URL, body and the
header fields in the order they were set (keys as written in the source). -/
structure HttpRequest where
  Method : String
  URL : String
  Body : String
  Header : List (String × String)
deriving DecidableEq, Repr

/-- Header.Set: the field key gets the single value value. -/
def HttpRequest.SetHeader (req : HttpRequest) (key value : String) : HttpRequest :=
  { req with Header := req.Header.filter (fun kv => kv.1 ≠ key) ++ [(key, value)] }

/-- An http.Response as far as ProcessText reads it: the status code and what
io.ReadAll returns for the body (the bytes, or the text of a read error). -/
structure HttpResponse where
  StatusCode : Int
  Body : Except String String

/-- The constant http.StatusOK. -/
def StatusOK : Int := 200

/-- The library calls of ProcessText that can fail, each returning its value or
the Error text of its error. -/
structure Env where
  Marshal : ClaudeRequest → Except String String
  NewRequest : String → String → String → Except String HttpRequest
  Do : HttpRequest → Except String HttpResponse
  Unmarshal : String → Except String ClaudeResponse

/-! ## ProcessText -/

/-- The switch on language at the top of ProcessText. -/
def languageInstruction (language : String) : String :=
  if language = "id" then "Please respond in Indonesian (Bahasa Indonesia). "
  else if language = "en" then "Please respond in US English. "
  else "Please respond in US English. "

/-- The switch on actionType: the value assigned to the variable prompt. -/
def prompt (text actionType language : String) : String :=
  let li := Operand.str (languageInstruction language)
  if actionType = "grammar" then
    if language = "id" then Sprintf grammarId [li, .str text]
    else Sprintf grammarEn [li, .str text]
  else if actionType = "improve" then
    if language = "id" then Sprintf improveId [li, .str text]
    else Sprintf improveEn [li, .str text]
  else if actionType = "rephrase" then
    if language = "id" then Sprintf rephraseId [li, .str text]
    else Sprintf rephraseEn [li, .str text]
  else if actionType = "formal" then
    if language = "id" then Sprintf formalId [li, .str text]
    else Sprintf formalEn [li, .str text]
  else if actionType = "detailed" then
    if language = "id" then Sprintf detailedId [li, .str text]
    else Sprintf detailedEn [li, .str text]
  else
    if language = "id" then Sprintf customId [li, .str actionType, .str text]
    else Sprintf customEn [li, .str actionType, .str text]

/-- The ClaudeRequest literal built from the prompt. -/
def request (text actionType language : String) : ClaudeRequest :=
  { Model := "claude-3-haiku-20240307"
    MaxTokens := 1000
    Messages := [{ Role := "user", Content := prompt text actionType language }] }

/-- The return statements of ProcessText, with the values each one uses. -/
inductive Outcome where
  | emptyText
  | missingKey
  | marshalError (err : String)
  | createError (err : String)
  | requestError (err : String)
  | readError (err : String)
  | statusError (code : Int) (body : String)
  | parseError (err : String)
  | text (t : String)
  | unexpectedFormat
deriving DecidableEq, Repr

/-- The pair (string, error) returned at each return statement; the error is
given by its message, none standing for nil. -/
def Outcome.returned : Outcome → String × Option String
  | .emptyText => ("", some (Sprintf "text cannot be empty" []))
  | .missingKey => ("", some (Sprintf "API key is required" []))
  | .marshalError err => ("", some (Sprintf "error marshaling request: %v" [.err err]))
  | .createError err => ("", some (Sprintf "error creating request: %v" [.err err]))
  | .requestError err => ("", some (Sprintf "error making request: %v" [.err err]))
  | .readError err => ("", some (Sprintf "error reading response: %v" [.err err]))
  | .statusError code body =>
    ("", some (Sprintf "API request failed with status %d: %s" [.int code, .str body]))
  | .parseError err => ("", some (Sprintf "error parsing response: %v" [.err err]))
  | .text t => (t, none)
  | .unexpectedFormat => ("", some (Sprintf "unexpected response format" []))

/-- The three Header.Set calls on the request. -/
def setHeaders (req : HttpRequest) (apiKey : String) : HttpRequest :=
  ((req.SetHeader "Content-Type" "application/json").SetHeader
    "X-API-Key" apiKey).SetHeader "anthropic-version" "2023-06-01"

/-- The body of ProcessText, statement by statement: the requests handed to
client.Do so far, and the return statement reached. -/
def ProcessText.run (env : Env) (text apiKey actionType language : String) :
    List HttpRequest × Outcome :=
  if TrimSpace text = "" then ([], .emptyText)
  else if TrimSpace apiKey = "" then ([], .missingKey)
  else
    match env.Marshal (request text actionType language) with
    | .error err => ([], .marshalError err)
    | .ok jsonData =>
      match env.NewRequest "POST" "https://api.anthropic.com/v1/messages" jsonData with
      | .error err => ([], .createError err)
      | .ok req0 =>
        let req := setHeaders req0 apiKey
        match env.Do req with
        | .error err => ([req], .requestError err)
        | .ok resp =>
          match resp.Body with
          | .error err => ([req], .readError err)
          | .ok body =>
            if resp.StatusCode ≠ StatusOK then ([req], .statusError resp.StatusCode body)
            else
              match env.Unmarshal body with
              | .error err => ([req], .parseError err)
              | .ok claudeResp =>
                match claudeResp.Content with
                | first :: _ =>
                  if first.Typ = "text" then ([req], .text first.Text)
                  else ([req], .unexpectedFormat)
                | [] => ([req], .unexpectedFormat)

/-- ProcessText handles different types of text processing using Claude API:
the returned pair (string, error). -/
def ProcessText (env : Env) (text apiKey actionType language : String) :
    String × Option String :=
  (ProcessText.run env text apiKey actionType language).2.returned

/-- The requests ProcessText hands to the network during one call. -/
def ProcessText.sent (env : Env) (text apiKey actionType language : String) :
    List HttpRequest :=
  (ProcessText.run env text apiKey actionType language).1

/-! ## Vocabulary of the statements -/

/-- The network answered the request of this call: the request was encoded,
built and sent, and a reply with status code code and body body came back. -/
def Replied (env : Env) (text apiKey actionType language : String)
    (code : Int) (body : String) : Prop :=
  ∃ jsonData req0 resp,
    env.Marshal (request text actionType language) = .ok jsonData ∧
    env.NewRequest "POST" "https://api.anthropic.com/v1/messages" jsonData = .ok req0 ∧
    env.Do (setHeaders req0 apiKey) = .ok resp ∧
    resp.StatusCode = code ∧ resp.Body = .ok body

/-- The case labels of the switch on actionType. -/
def namedActions : List String := ["grammar", "improve", "rephrase", "formal", "detailed"]

/-- The format string of the branch of the switch taken for an action and a language. -/
def template (actionType language : String) : String :=
  if actionType = "grammar" then
    if language = "id" then grammarId else grammarEn
  else if actionType = "improve" then
    if language = "id" then improveId else improveEn
  else if actionType = "rephrase" then
    if language = "id" then rephraseId else rephraseEn
  else if actionType = "formal" then
    if language = "id" then formalId else formalEn
  else if actionType = "detailed" then
    if language = "id" then detailedId else detailedEn
  else
    if language = "id" then customId else customEn

/-- The operands passed with that format string. -/
def operands (text actionType language : String) : List Operand :=
  if actionType ∈ namedActions then [.str (languageInstruction language), .str text]
  else [.str (languageInstruction language), .str actionType, .str text]

/-- The lines of a text, cut at the newline characters. -/
def splitLines : List Char → List (List Char)
  | [] => [[]]
  | c :: cs =>
    if c = '\n' then [] :: splitLines cs
    else
      match splitLines cs with
      | [] => [[c]]
      | l :: ls => (c :: l) :: ls

/-- The label of a header line, that is a line ending in a colon: the line
without that colon. -/
def headerLabel (line : List Char) : Option (List Char) :=
  if line.getLast? = some ':' then some line.dropLast else none

/-- A placeholder line: a line that starts with [ and ends with ]. -/
def isPlaceholder (line : List Char) : Bool :=
  line.head? = some '[' && line.getLast? = some ']'

/-- The labeled sections in a list of lines: each header line directly followed
by a placeholder line, as the pair of the header's label and the placeholder. -/
def sectionsOf : List (List Char) → List (String × String)
  | [] => []
  | [_] => []
  | h :: p :: rest =>
    match headerLabel h with
    | some label =>
      if isPlaceholder p then (String.mk label, String.mk p) :: sectionsOf rest
      else sectionsOf (p :: rest)
    | none => sectionsOf (p :: rest)

/-- The labeled sections a format string asks the remote model for. -/
def sections (format : String) : List (String × String) :=
  sectionsOf (splitLines format.data)

/-- The section headers of a format string, in order. -/
def sectionHeaders (format : String) : List String :=
  (sections format).map Prod.fst

/-- A placeholder that asks for the transformed text: in the templates these
start with "[Provide " or, in Indonesian, "[Berikan "; the placeholders of the
explanation sections ask to list or explain instead. -/
def asksForOutput (placeholder : String) : Bool :=
  "[Provide ".data.isPrefixOf placeholder.data || "[Berikan ".data.isPrefixOf placeholder.data

/-- For each section of a format string, in order: does it ask for the
transformed text (true) or for an explanation (false). -/
def sectionRoles (format : String) : List Bool :=
  (sections format).map (fun s => asksForOutput s.2)

/-- The kinds of failure of ProcessText. -/
inductive FailureKind where
  | blankText
  | blankCredential
  | serialization
  | transport
  | remoteStatus
  | parse
  | format
deriving DecidableEq, Repr

/-- The kind of failure of each failing return statement; request construction,
sending and reading the reply are all of the transport kind. -/
def Outcome.kind : Outcome → Option FailureKind
  | .emptyText => some .blankText
  | .missingKey => some .blankCredential
  | .marshalError _ => some .serialization
  | .createError _ => some .transport
  | .requestError _ => some .transport
  | .readError _ => some .transport
  | .statusError _ _ => some .remoteStatus
  | .parseError _ => some .parse
  | .text _ => none
  | .unexpectedFormat => some .format

/-- The list of characters starts with the given characters. -/
def startsWith : List Char → List Char → Bool
  | [], _ => true
  | p :: ps, cs =>
    match cs with
    | [] => false
    | c :: cs' => decide (p = c) && startsWith ps cs'

/-- Go strings.HasPrefix, with the prefix as first argument. -/
def HasPrefix (pre s : String) : Bool := startsWith pre.data s.data

/-- A reading of the failure kind off an error message, by the fixed words the
message starts with. -/
def classify (message : String) : Option FailureKind :=
  if message = "text cannot be empty" then some .blankText
  else if message = "API key is required" then some .blankCredential
  else if HasPrefix "error marshaling request: " message = true then some .serialization
  else if HasPrefix "error creating request: " message = true then some .transport
  else if HasPrefix "error making request: " message = true then some .transport
  else if HasPrefix "error reading response: " message = true then some .transport
  else if HasPrefix "API request failed with status " message = true then some .remoteStatus
  else if HasPrefix "error parsing response: " message = true then some .parse
  else if message = "unexpected response format" then some .format
  else none

/-- The format strings written in Indonesian: the first branch of each test on
language. -/
def indonesianTemplates : List String :=
  [grammarId, improveId, rephraseId, formalId, detailedId, customId]

/-- The format strings written in English: the else branch of each test on
language. -/
def englishTemplates : List String :=
  [grammarEn, improveEn, rephraseEn, formalEn, detailedEn, customEn]

/-- An environment in which encoding and request construction succeed, the
network answers every request with the given status code and body, and the
decoder returns the given result.  The encoder is a stand-in: it returns the
model name followed by the message contents. -/
def replyEnv (code : Int) (body : String) (decoded : Except String ClaudeResponse) : Env :=
  { Marshal := fun r => .ok (r.Messages.foldl (fun acc m => acc ++ m.Content) r.Model)
    NewRequest := fun method url data => .ok ⟨method, url, data, []⟩
    Do := fun _ => .ok ⟨code, .ok body⟩
    Unmarshal := fun _ => decoded }

/-! ## Lemmas on the library functions -/

theorem dropWhile_reverse_dropWhile_eq_nil (p : Char → Bool) (l : List Char) :
    (l.dropWhile p).reverse.dropWhile p = [] ↔ ∀ c ∈ l, p c = true := by
  constructor
  · intro h
    have hall : ∀ c ∈ l.dropWhile p, p c = true := by
      intro c hc
      have := List.dropWhile_eq_nil_iff.mp h c (List.mem_reverse.mpr hc)
      exact this
    have hnil : l.dropWhile p = [] := by
      by_contra hne
      have hhead := List.head_dropWhile_not p l hne
      have := hall _ (List.head_mem hne)
      simp [this] at hhead
    exact List.dropWhile_eq_nil_iff.mp hnil
  · intro h
    have : l.dropWhile p = [] := List.dropWhile_eq_nil_iff.mpr h
    simp [this]

/-- TrimSpace returns the empty string exactly on the strings made of white space only. -/
theorem TrimSpace_eq_empty_iff (s : String) :
    TrimSpace s = "" ↔ ∀ c ∈ s.data, IsSpace c = true := by
  rw [← dropWhile_reverse_dropWhile_eq_nil IsSpace s.data]
  unfold TrimSpace
  constructor
  · intro h
    have := congrArg String.data h
    simpa using this
  · intro h
    rw [h]; rfl

theorem run_blank_text (env : Env) (text apiKey actionType language : String)
    (h : TrimSpace text = "") :
    ProcessText.run env text apiKey actionType language = ([], .emptyText) := by
  simp [ProcessText.run, h]

theorem run_blank_key (env : Env) (text apiKey actionType language : String)
    (ht : TrimSpace text ≠ "") (h : TrimSpace apiKey = "") :
    ProcessText.run env text apiKey actionType language = ([], .missingKey) := by
  simp [ProcessText.run, ht, h]

/-! ## Input validation -/

/-- Claim C1: a text that is empty or made of white space only is rejected with
the error "text cannot be empty" and the empty string, whatever the other
arguments and the environment are, and no request is handed to the network. -/
theorem C1_blank_text_rejected (env : Env) (text apiKey actionType language : String)
    (hblank : ∀ c ∈ text.data, IsSpace c = true) :
    ProcessText env text apiKey actionType language = ("", some "text cannot be empty") ∧
    ProcessText.sent env text apiKey actionType language = [] := by
  have h := run_blank_text env text apiKey actionType language
    ((TrimSpace_eq_empty_iff text).mpr hblank)
  constructor
  · simp only [ProcessText, h]; rfl
  · simp only [ProcessText.sent, h]

theorem C1_blank_text_rejected_witness :
    (∀ c ∈ " \t\n ".data, IsSpace c = true) ∧
    ProcessText (replyEnv 200 "ok" (.error "bad")) " \t\n " "k" "grammar" "en"
      = ("", some "text cannot be empty") ∧
    ProcessText.sent (replyEnv 200 "ok" (.error "bad")) " \t\n " "k" "grammar" "en" = [] :=
  ⟨by decide, C1_blank_text_rejected _ _ _ _ _ (by decide)⟩

/-- Claim C2: with a non-blank text, an API key that is empty or made of white
space only is rejected with the error "API key is required" and the empty
string, whatever the action, the language and the environment are, and no
request is handed to the network. -/
theorem C2_blank_key_rejected (env : Env) (text apiKey actionType language : String)
    (htext : ¬ ∀ c ∈ text.data, IsSpace c = true)
    (hblank : ∀ c ∈ apiKey.data, IsSpace c = true) :
    ProcessText env text apiKey actionType language = ("", some "API key is required") ∧
    ProcessText.sent env text apiKey actionType language = [] := by
  have h := run_blank_key env text apiKey actionType language
    (fun h => htext ((TrimSpace_eq_empty_iff text).mp h))
    ((TrimSpace_eq_empty_iff apiKey).mpr hblank)
  constructor
  · simp only [ProcessText, h]; rfl
  · simp only [ProcessText.sent, h]

theorem C2_blank_key_rejected_witness :
    (¬ ∀ c ∈ "Helo wrld".data, IsSpace c = true) ∧
    (∀ c ∈ "  ".data, IsSpace c = true) ∧
    ProcessText (replyEnv 200 "ok" (.error "bad")) "Helo wrld" "  " "grammar" "id"
      = ("", some "API key is required") ∧
    ProcessText.sent (replyEnv 200 "ok" (.error "bad")) "Helo wrld" "  " "grammar" "id" = [] :=
  ⟨by decide, by decide, C2_blank_key_rejected _ _ _ _ _ (by decide) (by decide)⟩

/-! ## Handling of the reply -/

theorem Sprintf_status (code : Int) (body : String) :
    Sprintf "API request failed with status %d: %s" [.int code, .str body]
      = "API request failed with status " ++ toString code ++ ": " ++ body := by
  have h : (Sprintf "API request failed with status %d: %s" [.int code, .str body]).data
      = "API request failed with status ".data ++
        ((toString code).data ++ (": ".data ++ (body.data ++ []))) := rfl
  apply String.ext
  rw [h]
  simp only [String.data_append, List.append_assoc, List.append_nil]

theorem Sprintf_parse (err : String) :
    Sprintf "error parsing response: %v" [.err err] = "error parsing response: " ++ err := by
  have h : (Sprintf "error parsing response: %v" [.err err]).data
      = "error parsing response: ".data ++ (err.data ++ []) := rfl
  apply String.ext
  rw [h]
  simp only [String.data_append, List.append_nil]

/-- Claim C3: for a valid request answered with status 200 and a body that
decodes to a response whose content starts with an element of type "text",
ProcessText returns that element's text and a nil error, whatever the later
elements are. -/
theorem C3_first_text_returned (env : Env) (text apiKey actionType language body : String)
    (resp : ClaudeResponse) (first : ContentBlock) (rest : List ContentBlock)
    (htext : TrimSpace text ≠ "") (hkey : TrimSpace apiKey ≠ "")
    (hreply : Replied env text apiKey actionType language 200 body)
    (hdecode : env.Unmarshal body = .ok resp)
    (hcontent : resp.Content = first :: rest) (htype : first.Typ = "text") :
    ProcessText env text apiKey actionType language = (first.Text, none) := by
  obtain ⟨jsonData, req0, r, hm, hn, hd, hc, hb⟩ := hreply
  simp [ProcessText, ProcessText.run, htext, hkey, hm, hn, hd, hc, hb, StatusOK, hdecode,
    hcontent, htype, Outcome.returned]

theorem C3_first_text_returned_witness :
    TrimSpace "Helo wrld" ≠ "" ∧ TrimSpace "sk-1" ≠ "" ∧
    ProcessText
      (replyEnv 200 "\x7b\"content\":[\x7b\"type\":\"text\",\"text\":\"Hello\"\x7d]\x7d"
        (.ok ⟨[⟨"Hello", "text"⟩], "", "", "", "", "", "", ⟨0, 0⟩⟩))
      "Helo wrld" "sk-1" "grammar" "en" = ("Hello", none) :=
  ⟨by decide, by decide,
    C3_first_text_returned _ _ _ _ _ "\x7b\"content\":[\x7b\"type\":\"text\",\"text\":\"Hello\"\x7d]\x7d"
      ⟨[⟨"Hello", "text"⟩], "", "", "", "", "", "", ⟨0, 0⟩⟩ ⟨"Hello", "text"⟩ []
      (by decide) (by decide) ⟨_, _, _, rfl, rfl, rfl, rfl, rfl⟩ rfl rfl rfl⟩

/-- Claim C4: for a valid request answered with status 200 and a body that
decodes, ProcessText fails with "unexpected response format" when the content
is empty or its first element is not of type "text", whatever the later
elements are (a later element of type "text" is not looked at). -/
theorem C4_unexpected_format (env : Env) (text apiKey actionType language body : String)
    (resp : ClaudeResponse)
    (htext : TrimSpace text ≠ "") (hkey : TrimSpace apiKey ≠ "")
    (hreply : Replied env text apiKey actionType language 200 body)
    (hdecode : env.Unmarshal body = .ok resp)
    (hcontent : resp.Content = [] ∨
      ∃ first rest, resp.Content = first :: rest ∧ first.Typ ≠ "text") :
    ProcessText env text apiKey actionType language
      = ("", some "unexpected response format") := by
  obtain ⟨jsonData, req0, r, hm, hn, hd, hc, hb⟩ := hreply
  rcases hcontent with hnil | ⟨first, rest, hcons, htype⟩
  · simp only [ProcessText, ProcessText.run, htext, hkey, hm, hn, hd, hc, hb, StatusOK, hdecode,
      hnil, Outcome.returned]
    simp
    rfl
  · simp only [ProcessText, ProcessText.run, htext, hkey, hm, hn, hd, hc, hb, StatusOK, hdecode,
      hcons, htype, Outcome.returned]
    simp
    rfl

theorem C4_unexpected_format_witness :
    TrimSpace "Helo wrld" ≠ "" ∧ TrimSpace "sk-1" ≠ "" ∧
    ProcessText
      (replyEnv 200 "\x7b\"content\":[\x7b\"type\":\"tool_use\"\x7d,\x7b\"type\":\"text\",\"text\":\"Hello\"\x7d]\x7d"
        (.ok ⟨[⟨"", "tool_use"⟩, ⟨"Hello", "text"⟩], "", "", "", "", "", "", ⟨0, 0⟩⟩))
      "Helo wrld" "sk-1" "grammar" "en" = ("", some "unexpected response format") :=
  ⟨by decide, by decide,
    C4_unexpected_format _ _ _ _ _
      "\x7b\"content\":[\x7b\"type\":\"tool_use\"\x7d,\x7b\"type\":\"text\",\"text\":\"Hello\"\x7d]\x7d"
      ⟨[⟨"", "tool_use"⟩, ⟨"Hello", "text"⟩], "", "", "", "", "", "", ⟨0, 0⟩⟩
      (by decide) (by decide) ⟨_, _, _, rfl, rfl, rfl, rfl, rfl⟩ rfl
      (Or.inr ⟨⟨"", "tool_use"⟩, [⟨"Hello", "text"⟩], rfl, by decide⟩)⟩

/-- Claim C5: for a valid request answered with a status code other than 200,
ProcessText fails with the message "API request failed with status CODE: BODY",
CODE being the status code in decimal and BODY the body as received; the
decoder plays no part, so the body need not be valid JSON. -/
theorem C5_status_error (env : Env) (text apiKey actionType language body : String)
    (code : Int)
    (htext : TrimSpace text ≠ "") (hkey : TrimSpace apiKey ≠ "")
    (hreply : Replied env text apiKey actionType language code body)
    (hcode : code ≠ 200) :
    ProcessText env text apiKey actionType language
      = ("", some ("API request failed with status " ++ toString code ++ ": " ++ body)) := by
  obtain ⟨jsonData, req0, r, hm, hn, hd, hc, hb⟩ := hreply
  simp only [ProcessText, ProcessText.run, htext, hkey, hm, hn, hd, hc, hb, StatusOK,
    Outcome.returned, Sprintf_status]
  simp [hcode, Outcome.returned, Sprintf_status]

theorem C5_status_error_witness :
    TrimSpace "Helo wrld" ≠ "" ∧ TrimSpace "sk-1" ≠ "" ∧ (429 : Int) ≠ 200 ∧
    ProcessText (replyEnv 429 "rate limited" (.error "invalid character"))
      "Helo wrld" "sk-1" "grammar" "en"
      = ("", some "API request failed with status 429: rate limited") :=
  ⟨by decide, by decide, by decide,
    (C5_status_error (replyEnv 429 "rate limited" (.error "invalid character"))
      "Helo wrld" "sk-1" "grammar" "en" "rate limited" 429
      (by decide) (by decide) ⟨_, _, _, rfl, rfl, rfl, rfl, rfl⟩ (by decide)).trans (by decide)⟩

/-- Claim C6: for a valid request answered with status 200 and a body the
decoder rejects, ProcessText returns the empty string and an error whose
message is "error parsing response: " followed by the decoder's error text. -/
theorem C6_parse_error (env : Env) (text apiKey actionType language body cause : String)
    (htext : TrimSpace text ≠ "") (hkey : TrimSpace apiKey ≠ "")
    (hreply : Replied env text apiKey actionType language 200 body)
    (hdecode : env.Unmarshal body = .error cause) :
    ProcessText env text apiKey actionType language
      = ("", some ("error parsing response: " ++ cause)) := by
  obtain ⟨jsonData, req0, r, hm, hn, hd, hc, hb⟩ := hreply
  simp [ProcessText, ProcessText.run, htext, hkey, hm, hn, hd, hc, hb, StatusOK, hdecode,
    Outcome.returned, Sprintf_parse]

theorem C6_parse_error_witness :
    TrimSpace "Helo wrld" ≠ "" ∧ TrimSpace "sk-1" ≠ "" ∧
    ProcessText (replyEnv 200 "<html>" (.error "invalid character '<' looking for beginning of value"))
      "Helo wrld" "sk-1" "grammar" "en"
      = ("", some "error parsing response: invalid character '<' looking for beginning of value") :=
  ⟨by decide, by decide,
    (C6_parse_error _ _ _ _ _ "<html>" "invalid character '<' looking for beginning of value"
      (by decide) (by decide) ⟨_, _, _, rfl, rfl, rfl, rfl, rfl⟩ rfl).trans (by decide)⟩

/-! ## Prompt rendering -/

/-- The prompt is the chosen template formatted with the chosen operands. -/
theorem prompt_eq_Sprintf_template (text actionType language : String) :
    prompt text actionType language
      = Sprintf (template actionType language) (operands text actionType language) := by
  unfold prompt template operands namedActions
  by_cases h1 : actionType = "grammar"
  · subst h1; by_cases hl : language = "id" <;> simp [hl]
  by_cases h2 : actionType = "improve"
  · subst h2; by_cases hl : language = "id" <;> simp [hl]
  by_cases h3 : actionType = "rephrase"
  · subst h3; by_cases hl : language = "id" <;> simp [hl]
  by_cases h4 : actionType = "formal"
  · subst h4; by_cases hl : language = "id" <;> simp [hl]
  by_cases h5 : actionType = "detailed"
  · subst h5; by_cases hl : language = "id" <;> simp [hl]
  by_cases hl : language = "id" <;> simp [h1, h2, h3, h4, h5, hl]

/-- A format that starts with the verb %s prints its first operand first. -/
theorem Sprintf_str_first (format : String) (tail : List Char)
    (h : format.data = '%' :: 's' :: tail) (s : String) (args : List Operand) :
    Sprintf format (.str s :: args) = s ++ String.mk (Sprintf.expand tail args) := by
  apply String.ext
  simp only [Sprintf, h, String.data_append]
  rfl

theorem languageInstruction_of_ne_id (language : String) (h : language ≠ "id") :
    languageInstruction language = "Please respond in US English. " := by
  unfold languageInstruction
  simp [h]

set_option maxRecDepth 100000 in
theorem Sprintf_customEn (li actionType text : String) :
    Sprintf customEn [.str li, .str actionType, .str text]
      = li ++ "Please perform the following action on the given text:\n\nInstruction: " ++ actionType ++ "\n\nText to process:\n\"" ++ text ++ "\"\n\nPlease respond in this exact format:\n\nANALYSIS:\n[Brief explanation of the action performed]\n\nFINAL RESULT:\n[Provide the final result of the requested action]" := by
  apply String.ext
  simp only [String.data_append, List.append_assoc]
  rfl

set_option maxRecDepth 100000 in
theorem Sprintf_customId (li actionType text : String) :
    Sprintf customId [.str li, .str actionType, .str text]
      = li ++ "Silakan lakukan tindakan berikut pada teks yang diberikan:\n\nInstruksi: " ++ actionType ++ "\n\nTeks yang akan diproses:\n\"" ++ text ++ "\"\n\nHarap berikan respons dalam format yang tepat ini:\n\nANALISIS:\n[Penjelasan singkat tentang tindakan yang dilakukan]\n\nHASIL AKHIR:\n[Berikan hasil akhir dari tindakan yang diminta]" := by
  apply String.ext
  simp only [String.data_append, List.append_assoc]
  rfl

/-- Claim C7: an actionType that is none of "grammar", "improve", "rephrase",
"formal", "detailed" is rendered with the free-form template: the language
directive, the instruction label followed by actionType as given, the text
between double quotes, and the two sections ANALYSIS / FINAL RESULT (ANALISIS /
HASIL AKHIR for language "id"). -/
theorem C7_custom_instruction (text actionType language : String)
    (hcustom : actionType ∉ namedActions) :
    prompt text actionType language =
      if language = "id" then
        "Please respond in Indonesian (Bahasa Indonesia). " ++
        "Silakan lakukan tindakan berikut pada teks yang diberikan:\n\nInstruksi: " ++ actionType ++ "\n\nTeks yang akan diproses:\n\"" ++ text ++ "\"\n\nHarap berikan respons dalam format yang tepat ini:\n\nANALISIS:\n[Penjelasan singkat tentang tindakan yang dilakukan]\n\nHASIL AKHIR:\n[Berikan hasil akhir dari tindakan yang diminta]"
      else
        "Please respond in US English. " ++
        "Please perform the following action on the given text:\n\nInstruction: " ++ actionType ++ "\n\nText to process:\n\"" ++ text ++ "\"\n\nPlease respond in this exact format:\n\nANALYSIS:\n[Brief explanation of the action performed]\n\nFINAL RESULT:\n[Provide the final result of the requested action]" := by
  simp only [namedActions, List.mem_cons, List.mem_singleton, List.not_mem_nil, or_false,
    not_or] at hcustom
  obtain ⟨h1, h2, h3, h4, h5⟩ := hcustom
  unfold prompt
  by_cases hl : language = "id"
  · simp only [h1, h2, h3, h4, h5, hl, if_true, if_false, Sprintf_customId]
    rfl
  · simp only [h1, h2, h3, h4, h5, hl, if_false, Sprintf_customEn,
      languageInstruction_of_ne_id language hl]

set_option maxRecDepth 100000 in
theorem C7_custom_instruction_witness :
    "Translate to French" ∉ namedActions ∧
    prompt "He said \"hi\"" "Translate to French" "en" =
      "Please respond in US English. Please perform the following action on the given text:\n\nInstruction: Translate to French\n\nText to process:\n\"He said \"hi\"\"\n\nPlease respond in this exact format:\n\nANALYSIS:\n[Brief explanation of the action performed]\n\nFINAL RESULT:\n[Provide the final result of the requested action]" :=
  ⟨by decide, (C7_custom_instruction "He said \"hi\"" "Translate to French" "en"
    (by decide)).trans (by decide)⟩

/-- Claim C8: for every language code other than "id" the directive is
"Please respond in US English. ", the prompt starts with it, and the prompt is
the one rendered for language "en" with the same text and actionType. -/
theorem C8_language_fallback (text actionType language : String) (hlang : language ≠ "id") :
    languageInstruction language = "Please respond in US English. " ∧
    (∃ rest, prompt text actionType language = "Please respond in US English. " ++ rest) ∧
    prompt text actionType language = prompt text actionType "en" := by
  have hli := languageInstruction_of_ne_id language hlang
  have hen : languageInstruction "en" = "Please respond in US English. " := by decide
  have hne : ¬ ("en" = "id") := by decide
  refine ⟨hli, ?_, ?_⟩
  · rw [prompt_eq_Sprintf_template]
    unfold template operands
    simp only [hlang, if_false, hli]
    split_ifs
    all_goals exact ⟨_, Sprintf_str_first _ _ rfl _ _⟩
  · unfold prompt
    simp only [hlang, hne, if_false, hli, hen]

theorem C8_language_fallback_witness :
    "ID" ≠ "id" ∧
    languageInstruction "ID" = "Please respond in US English. " ∧
    (∃ rest, prompt "Helo wrld" "formal" "ID" = "Please respond in US English. " ++ rest) ∧
    prompt "Helo wrld" "formal" "ID" = prompt "Helo wrld" "formal" "en" :=
  ⟨by decide, C8_language_fallback "Helo wrld" "formal" "ID" (by decide)⟩

/-! ## The two sections of the named templates -/

set_option maxRecDepth 100000 in
theorem sectionHeaders_grammarId :
    sectionHeaders grammarId = ["ANALISIS", "TEKS YANG DIPERBAIKI"] := by decide

set_option maxRecDepth 100000 in
theorem sectionHeaders_grammarEn :
    sectionHeaders grammarEn = ["ANALYSIS", "CORRECTED TEXT"] := by decide

set_option maxRecDepth 100000 in
theorem sectionHeaders_improveId :
    sectionHeaders improveId = ["PERBAIKAN YANG DILAKUKAN", "TEKS YANG DITINGKATKAN"] := by decide

set_option maxRecDepth 100000 in
theorem sectionHeaders_improveEn :
    sectionHeaders improveEn = ["IMPROVEMENTS MADE", "IMPROVED TEXT"] := by decide

set_option maxRecDepth 100000 in
theorem sectionHeaders_rephraseId :
    sectionHeaders rephraseId = ["CATATAN PARAFRASA", "TEKS YANG DIPARAFRASA"] := by decide

set_option maxRecDepth 100000 in
theorem sectionHeaders_rephraseEn :
    sectionHeaders rephraseEn = ["REPHRASING NOTES", "REPHRASED TEXT"] := by decide

set_option maxRecDepth 100000 in
theorem sectionHeaders_formalId :
    sectionHeaders formalId = ["CATATAN FORMALISASI", "TEKS FORMAL"] := by decide

set_option maxRecDepth 100000 in
theorem sectionHeaders_formalEn :
    sectionHeaders formalEn = ["FORMALIZATION NOTES", "FORMAL TEXT"] := by decide

set_option maxRecDepth 100000 in
theorem sectionHeaders_detailedId :
    sectionHeaders detailedId = ["DETAIL PENGEMBANGAN", "TEKS YANG DIPERLUAS"] := by decide

set_option maxRecDepth 100000 in
theorem sectionHeaders_detailedEn :
    sectionHeaders detailedEn = ["EXPANSION DETAILS", "DETAILED TEXT"] := by decide

set_option maxRecDepth 100000 in
theorem sectionHeaders_customId :
    sectionHeaders customId = ["ANALISIS", "HASIL AKHIR"] := by decide

set_option maxRecDepth 100000 in
theorem sectionHeaders_customEn :
    sectionHeaders customEn = ["ANALYSIS", "FINAL RESULT"] := by decide

theorem template_language (actionType language : String) :
    template actionType language
      = template actionType (if language = "id" then "id" else "en") := by
  unfold template
  by_cases hl : language = "id"
  · simp [hl]
  · have hne : ¬ ("en" = "id") := by decide
    simp only [hl, hne, if_false]

set_option maxRecDepth 100000 in
theorem named_templates_checked :
    ∀ a ∈ namedActions, ∀ l ∈ ["id", "en"],
      (sectionHeaders (template a l)).length = 2 ∧
      sectionRoles (template a l) = [false, true] ∧
      (∀ h ∈ sectionHeaders (template a l), h ≠ "") ∧
      ∀ other ∈ namedActions, other ≠ a →
        (sectionHeaders (template other l)).get? 1 ≠ (sectionHeaders (template a l)).get? 1 := by
  decide

theorem list_of_length_two (l : List String) (h : l.length = 2) :
    ∃ a b, l = [a, b] := by
  match l, h with
  | [a, b], _ => exact ⟨a, b, rfl⟩

/-- Claim C9: for each of the five named actions and every language (the
Indonesian variant for "id", the English one otherwise) the template has
exactly two labeled sections, the first asking for an explanation and the
second for the transformed text; neither header is empty, and the header of
the second section is different from that of every other named action in the
same language. -/
theorem C9_two_sections (actionType language : String) (hnamed : actionType ∈ namedActions) :
    ∃ explanation output : String,
      sectionHeaders (template actionType language) = [explanation, output] ∧
      sectionRoles (template actionType language) = [false, true] ∧
      explanation ≠ "" ∧ output ≠ "" ∧
      ∀ other ∈ namedActions, other ≠ actionType →
        ∀ explanation' output', sectionHeaders (template other language)
          = [explanation', output'] → output' ≠ output := by
  have hl : (if language = "id" then "id" else "en") ∈ ["id", "en"] := by
    by_cases h : language = "id" <;> simp [h]
  obtain ⟨hlen, hroles, hne, hdiff⟩ :=
    named_templates_checked actionType hnamed _ hl
  rw [← template_language] at hlen hroles hne
  obtain ⟨e, o, heo⟩ := list_of_length_two _ hlen
  refine ⟨e, o, heo, hroles, hne e (by simp [heo]), hne o (by simp [heo]), ?_⟩
  intro other hother hneq e' o' heo' hcontra
  have := hdiff other hother hneq
  rw [← template_language, ← template_language, heo, heo', hcontra] at this
  exact this rfl

theorem C9_two_sections_witness :
    "rephrase" ∈ namedActions ∧
    ∃ explanation output : String,
      sectionHeaders (template "rephrase" "id") = [explanation, output] ∧
      sectionRoles (template "rephrase" "id") = [false, true] ∧
      explanation ≠ "" ∧ output ≠ "" ∧
      ∀ other ∈ namedActions, other ≠ "rephrase" →
        ∀ explanation' output', sectionHeaders (template other "id")
          = [explanation', output'] → output' ≠ output :=
  ⟨by decide, C9_two_sections "rephrase" "id" (by decide)⟩

/-! ## Failure kinds and error messages -/

/-- The message of a failing return statement tells its kind. -/
theorem classify_returned : ∀ (o : Outcome) (k : FailureKind), o.kind = some k →
    ∃ m, o.returned = ("", some m) ∧ classify m = some k
  | .emptyText, _, rfl => ⟨_, rfl, rfl⟩
  | .missingKey, _, rfl => ⟨_, rfl, rfl⟩
  | .marshalError _, _, rfl => ⟨_, rfl, rfl⟩
  | .createError _, _, rfl => ⟨_, rfl, rfl⟩
  | .requestError _, _, rfl => ⟨_, rfl, rfl⟩
  | .readError _, _, rfl => ⟨_, rfl, rfl⟩
  | .statusError _ _, _, rfl => ⟨_, rfl, rfl⟩
  | .parseError _, _, rfl => ⟨_, rfl, rfl⟩
  | .unexpectedFormat, _, rfl => ⟨_, rfl, rfl⟩

/-- Claim C10: two executions of ProcessText that fail for different kinds
(blank text, blank credential, serialization, request construction or
transport, status other than 200, parse failure, unexpected format) return
different error messages, whatever the inputs, status codes, bodies and
underlying error texts are. -/
theorem C10_kinds_distinguishable (env₁ env₂ : Env)
    (text₁ apiKey₁ actionType₁ language₁ text₂ apiKey₂ actionType₂ language₂ : String)
    (k₁ k₂ : FailureKind)
    (h₁ : (ProcessText.run env₁ text₁ apiKey₁ actionType₁ language₁).2.kind = some k₁)
    (h₂ : (ProcessText.run env₂ text₂ apiKey₂ actionType₂ language₂).2.kind = some k₂)
    (hk : k₁ ≠ k₂) :
    ∃ m₁ m₂, ProcessText env₁ text₁ apiKey₁ actionType₁ language₁ = ("", some m₁) ∧
      ProcessText env₂ text₂ apiKey₂ actionType₂ language₂ = ("", some m₂) ∧ m₁ ≠ m₂ := by
  obtain ⟨m₁, hr₁, hc₁⟩ := classify_returned _ _ h₁
  obtain ⟨m₂, hr₂, hc₂⟩ := classify_returned _ _ h₂
  refine ⟨m₁, m₂, hr₁, hr₂, ?_⟩
  intro heq
  rw [heq, hc₂] at hc₁
  exact hk (Option.some.inj hc₁).symm

theorem C10_kinds_distinguishable_witness :
    ∃ m₁ m₂,
      ProcessText (replyEnv 429 "rate limited" (.error "invalid character"))
        "Helo wrld" "sk-1" "grammar" "en" = ("", some m₁) ∧
      ProcessText (replyEnv 200 "<html>" (.error "invalid character"))
        "Helo wrld" "sk-1" "improve" "id" = ("", some m₂) ∧ m₁ ≠ m₂ :=
  C10_kinds_distinguishable (replyEnv 429 "rate limited" (.error "invalid character"))
    (replyEnv 200 "<html>" (.error "invalid character"))
    "Helo wrld" "sk-1" "grammar" "en" "Helo wrld" "sk-1" "improve" "id"
    .remoteStatus .parse (by decide) (by decide) (by decide)

/-! ## All or nothing -/

/-- Claim C11: whatever the inputs and the environment are, ProcessText either
returns a nil error together with the text of the first content block of the
decoded reply (a valid request, answered with status 200, whose first block is
of type "text"), or returns an error together with the empty string. -/
theorem C11_no_partial_result (env : Env) (text apiKey actionType language : String) :
    (∃ body resp first rest,
      TrimSpace text ≠ "" ∧ TrimSpace apiKey ≠ "" ∧
      Replied env text apiKey actionType language 200 body ∧
      env.Unmarshal body = .ok resp ∧ resp.Content = first :: rest ∧ first.Typ = "text" ∧
      ProcessText env text apiKey actionType language = (first.Text, none)) ∨
    (∃ m, ProcessText env text apiKey actionType language = ("", some m)) := by
  unfold ProcessText ProcessText.run
  by_cases ht : TrimSpace text = ""
  · right; simp [ht, Outcome.returned]
  by_cases hk : TrimSpace apiKey = ""
  · right; simp [ht, hk, Outcome.returned]
  cases hm : env.Marshal (request text actionType language) with
  | error e => right; simp [ht, hk, Outcome.returned]
  | ok jsonData =>
    cases hn : env.NewRequest "POST" "https://api.anthropic.com/v1/messages" jsonData with
    | error e => right; simp [ht, hk, hm, hn, Outcome.returned]
    | ok req0 =>
      cases hd : env.Do (setHeaders req0 apiKey) with
      | error e => right; simp [ht, hk, hm, hn, hd, Outcome.returned]
      | ok resp =>
        cases hb : resp.Body with
        | error e => right; simp [ht, hk, hm, hn, hd, hb, Outcome.returned]
        | ok body =>
          by_cases hc : resp.StatusCode = StatusOK
          · cases hu : env.Unmarshal body with
            | error e => right; simp [ht, hk, hm, hn, hd, hb, hc, hu, Outcome.returned]
            | ok claudeResp =>
              cases hcont : claudeResp.Content with
              | nil => right; simp [ht, hk, hm, hn, hd, hb, hc, hu, hcont, Outcome.returned]
              | cons first rest =>
                by_cases hty : first.Typ = "text"
                · left
                  refine ⟨body, claudeResp, first, rest, ht, hk,
                    ⟨jsonData, req0, resp, hm, hn, hd, hc, hb⟩, hu, hcont, hty, ?_⟩
                  simp [ht, hk, hm, hn, hd, hb, hc, hu, hcont, hty, Outcome.returned]
                · right; simp [ht, hk, hm, hn, hd, hb, hc, hu, hcont, hty, Outcome.returned]
          · right; simp [ht, hk, hm, hn, hd, hb, hc, Outcome.returned]

/-! ## The text inside the prompt -/

set_option maxRecDepth 100000 in
theorem Sprintf_grammarId_quoted (li text : String) :
    Sprintf grammarId [.str li, .str text]
      = li ++ "Analisis teks berikut untuk masalah tata bahasa, ejaan, dan gaya penulisan.\n\nTeks yang akan dianalisis:\n" ++ "\"" ++ text ++ "\"" ++ "\n\nHarap berikan respons dalam format yang tepat ini:\n\nANALISIS:\n[Daftar masalah tata bahasa, ejaan, dan gaya yang ditemukan. Jika tidak ada masalah, tulis \"Tidak ada masalah yang terdeteksi.\"]\n\nTEKS YANG DIPERBAIKI:\n[Berikan versi teks yang telah diperbaiki dengan semua masalah diperbaiki]" := by
  apply String.ext
  simp only [String.data_append, List.append_assoc]
  rfl

set_option maxRecDepth 100000 in
theorem Sprintf_grammarEn_quoted (li text : String) :
    Sprintf grammarEn [.str li, .str text]
      = li ++ "Analyze the following text for grammar, spelling, and style issues.\n\nText to analyze:\n" ++ "\"" ++ text ++ "\"" ++ "\n\nPlease respond in this exact format:\n\nANALYSIS:\n[List specific grammar, spelling, and style issues found. If none found, write \"No issues detected.\"]\n\nCORRECTED TEXT:\n[Provide the corrected version of the text with all issues fixed]" := by
  apply String.ext
  simp only [String.data_append, List.append_assoc]
  rfl

set_option maxRecDepth 100000 in
theorem Sprintf_improveId_quoted (li text : String) :
    Sprintf improveId [.str li, .str text]
      = li ++ "Tingkatkan teks berikut dengan meningkatkan kejelasan, alur, dan kualitas secara keseluruhan sambil mempertahankan makna aslinya.\n\nTeks asli:\n" ++ "\"" ++ text ++ "\"" ++ "\n\nHarap berikan respons dalam format yang tepat ini:\n\nPERBAIKAN YANG DILAKUKAN:\n[Daftar perbaikan dan peningkatan spesifik yang dilakukan pada teks]\n\nTEKS YANG DITINGKATKAN:\n[Berikan versi teks yang telah ditingkatkan]" := by
  apply String.ext
  simp only [String.data_append, List.append_assoc]
  rfl

set_option maxRecDepth 100000 in
theorem Sprintf_improveEn_quoted (li text : String) :
    Sprintf improveEn [.str li, .str text]
      = li ++ "Improve the following text by enhancing clarity, flow, and overall quality while maintaining the original meaning.\n\nOriginal text:\n" ++ "\"" ++ text ++ "\"" ++ "\n\nPlease respond in this exact format:\n\nIMPROVEMENTS MADE:\n[List the specific improvements and enhancements made to the text]\n\nIMPROVED TEXT:\n[Provide the enhanced version of the text]" := by
  apply String.ext
  simp only [String.data_append, List.append_assoc]
  rfl

set_option maxRecDepth 100000 in
theorem Sprintf_rephraseId_quoted (li text : String) :
    Sprintf rephraseId [.str li, .str text]
      = li ++ "Parafrase teks berikut menggunakan kata-kata dan struktur kalimat yang berbeda sambil mempertahankan makna yang sama.\n\nTeks asli:\n" ++ "\"" ++ text ++ "\"" ++ "\n\nHarap berikan respons dalam format yang tepat ini:\n\nCATATAN PARAFRASA:\n[Penjelasan singkat tentang pendekatan parafrasa yang digunakan]\n\nTEKS YANG DIPARAFRASA:\n[Berikan versi teks yang telah diparafrasa]" := by
  apply String.ext
  simp only [String.data_append, List.append_assoc]
  rfl

set_option maxRecDepth 100000 in
theorem Sprintf_rephraseEn_quoted (li text : String) :
    Sprintf rephraseEn [.str li, .str text]
      = li ++ "Rephrase the following text using different words and sentence structures while keeping the same meaning.\n\nOriginal text:\n" ++ "\"" ++ text ++ "\"" ++ "\n\nPlease respond in this exact format:\n\nREPHRASING NOTES:\n[Brief explanation of the rephrasing approach used]\n\nREPHRASED TEXT:\n[Provide the rephrased version of the text]" := by
  apply String.ext
  simp only [String.data_append, List.append_assoc]
  rfl

set_option maxRecDepth 100000 in
theorem Sprintf_formalId_quoted (li text : String) :
    Sprintf formalId [.str li, .str text]
      = li ++ "Tulis ulang teks berikut dengan nada yang lebih formal dan profesional yang cocok untuk konteks bisnis atau akademik.\n\nTeks asli:\n" ++ "\"" ++ text ++ "\"" ++ "\n\nHarap berikan respons dalam format yang tepat ini:\n\nCATATAN FORMALISASI:\n[Jelaskan perubahan apa yang dilakukan untuk membuat teks lebih formal]\n\nTEKS FORMAL:\n[Berikan versi formal dari teks]" := by
  apply String.ext
  simp only [String.data_append, List.append_assoc]
  rfl

set_option maxRecDepth 100000 in
theorem Sprintf_formalEn_quoted (li text : String) :
    Sprintf formalEn [.str li, .str text]
      = li ++ "Rewrite the following text in a more formal, professional tone suitable for business or academic contexts.\n\nOriginal text:\n" ++ "\"" ++ text ++ "\"" ++ "\n\nPlease respond in this exact format:\n\nFORMALIZATION NOTES:\n[Explain what changes were made to make the text more formal]\n\nFORMAL TEXT:\n[Provide the formal version of the text]" := by
  apply String.ext
  simp only [String.data_append, List.append_assoc]
  rfl

set_option maxRecDepth 100000 in
theorem Sprintf_detailedId_quoted (li text : String) :
    Sprintf detailedId [.str li, .str text]
      = li ++ "Kembangkan teks berikut dengan menambahkan lebih banyak detail, penjelasan, dan konteks sambil mempertahankan keakuratan.\n\nTeks asli:\n" ++ "\"" ++ text ++ "\"" ++ "\n\nHarap berikan respons dalam format yang tepat ini:\n\nDETAIL PENGEMBANGAN:\n[Jelaskan informasi dan detail tambahan apa yang ditambahkan]\n\nTEKS YANG DIPERLUAS:\n[Berikan versi teks yang diperluas dan lebih detail]" := by
  apply String.ext
  simp only [String.data_append, List.append_assoc]
  rfl

set_option maxRecDepth 100000 in
theorem Sprintf_detailedEn_quoted (li text : String) :
    Sprintf detailedEn [.str li, .str text]
      = li ++ "Expand the following text by adding more details, explanations, and context while maintaining accuracy.\n\nOriginal text:\n" ++ "\"" ++ text ++ "\"" ++ "\n\nPlease respond in this exact format:\n\nEXPANSION DETAILS:\n[Explain what additional information and details were added]\n\nDETAILED TEXT:\n[Provide the expanded, more detailed version of the text]" := by
  apply String.ext
  simp only [String.data_append, List.append_assoc]
  rfl

set_option maxRecDepth 100000 in
theorem Sprintf_customId_quoted (li actionType text : String) :
    Sprintf customId [.str li, .str actionType, .str text]
      = li ++ "Silakan lakukan tindakan berikut pada teks yang diberikan:\n\nInstruksi: " ++ actionType ++ "\n\nTeks yang akan diproses:\n" ++ "\"" ++ text ++ "\"" ++ "\n\nHarap berikan respons dalam format yang tepat ini:\n\nANALISIS:\n[Penjelasan singkat tentang tindakan yang dilakukan]\n\nHASIL AKHIR:\n[Berikan hasil akhir dari tindakan yang diminta]" := by
  apply String.ext
  simp only [String.data_append, List.append_assoc]
  rfl

set_option maxRecDepth 100000 in
theorem Sprintf_customEn_quoted (li actionType text : String) :
    Sprintf customEn [.str li, .str actionType, .str text]
      = li ++ "Please perform the following action on the given text:\n\nInstruction: " ++ actionType ++ "\n\nText to process:\n" ++ "\"" ++ text ++ "\"" ++ "\n\nPlease respond in this exact format:\n\nANALYSIS:\n[Brief explanation of the action performed]\n\nFINAL RESULT:\n[Provide the final result of the requested action]" := by
  apply String.ext
  simp only [String.data_append, List.append_assoc]
  rfl

/-- Claim C12: for every text, actionType and language the prompt contains the
text as given, neither escaped nor trimmed, directly between two double-quote
characters. -/
theorem C12_text_quoted_verbatim (text actionType language : String) :
    ∃ before after : String,
      prompt text actionType language = before ++ "\"" ++ text ++ "\"" ++ after := by
  unfold prompt
  dsimp only
  by_cases h1 : actionType = "grammar"
  · rw [if_pos h1]
    by_cases hl : language = "id"
    · rw [if_pos hl]; exact ⟨_, _, Sprintf_grammarId_quoted _ _⟩
    · rw [if_neg hl]; exact ⟨_, _, Sprintf_grammarEn_quoted _ _⟩
  rw [if_neg h1]
  by_cases h2 : actionType = "improve"
  · rw [if_pos h2]
    by_cases hl : language = "id"
    · rw [if_pos hl]; exact ⟨_, _, Sprintf_improveId_quoted _ _⟩
    · rw [if_neg hl]; exact ⟨_, _, Sprintf_improveEn_quoted _ _⟩
  rw [if_neg h2]
  by_cases h3 : actionType = "rephrase"
  · rw [if_pos h3]
    by_cases hl : language = "id"
    · rw [if_pos hl]; exact ⟨_, _, Sprintf_rephraseId_quoted _ _⟩
    · rw [if_neg hl]; exact ⟨_, _, Sprintf_rephraseEn_quoted _ _⟩
  rw [if_neg h3]
  by_cases h4 : actionType = "formal"
  · rw [if_pos h4]
    by_cases hl : language = "id"
    · rw [if_pos hl]; exact ⟨_, _, Sprintf_formalId_quoted _ _⟩
    · rw [if_neg hl]; exact ⟨_, _, Sprintf_formalEn_quoted _ _⟩
  rw [if_neg h4]
  by_cases h5 : actionType = "detailed"
  · rw [if_pos h5]
    by_cases hl : language = "id"
    · rw [if_pos hl]; exact ⟨_, _, Sprintf_detailedId_quoted _ _⟩
    · rw [if_neg hl]; exact ⟨_, _, Sprintf_detailedEn_quoted _ _⟩
  rw [if_neg h5]
  by_cases hl : language = "id"
  · rw [if_pos hl]; exact ⟨_, _, Sprintf_customId_quoted _ _ _⟩
  · rw [if_neg hl]; exact ⟨_, _, Sprintf_customEn_quoted _ _ _⟩

set_option maxRecDepth 100000 in
theorem C12_text_quoted_verbatim_witness :
    ∃ before after : String,
      prompt " 100%s \"sure\"\nANALYSIS:\n " "formal" "id"
        = before ++ "\"" ++ " 100%s \"sure\"\nANALYSIS:\n " ++ "\"" ++ after :=
  C12_text_quoted_verbatim " 100%s \"sure\"\nANALYSIS:\n " "formal" "id"

/-! ## The completion call -/

theorem Sprintf_marshal (err : String) :
    Sprintf "error marshaling request: %v" [.err err] = "error marshaling request: " ++ err := by
  have h : (Sprintf "error marshaling request: %v" [.err err]).data
      = "error marshaling request: ".data ++ (err.data ++ []) := rfl
  apply String.ext
  rw [h]
  simp only [String.data_append, List.append_nil]

/-- The requests sent by a call that passes validation: none when encoding or
request construction fails, else the constructed request with its headers. -/
theorem sent_eq (env : Env) (text apiKey actionType language : String)
    (htext : TrimSpace text ≠ "") (hkey : TrimSpace apiKey ≠ "") :
    ProcessText.sent env text apiKey actionType language =
      match env.Marshal (request text actionType language) with
      | .error _ => []
      | .ok jsonData =>
        match env.NewRequest "POST" "https://api.anthropic.com/v1/messages" jsonData with
        | .error _ => []
        | .ok req0 => [setHeaders req0 apiKey] := by
  unfold ProcessText.sent ProcessText.run
  simp only [htext, hkey, if_false]
  cases hm : env.Marshal (request text actionType language) with
  | error e => rfl
  | ok jsonData =>
    cases hn : env.NewRequest "POST" "https://api.anthropic.com/v1/messages" jsonData with
    | error e => simp [hn]
    | ok req0 =>
      cases hd : env.Do (setHeaders req0 apiKey) with
      | error e => simp [hn, hd]
      | ok resp =>
        cases hb : resp.Body with
        | error e => simp [hn, hd, hb]
        | ok body =>
          by_cases hc : resp.StatusCode = StatusOK
          · cases hu : env.Unmarshal body with
            | error e => simp [hn, hd, hb, hc, hu]
            | ok claudeResp =>
              cases hcont : claudeResp.Content with
              | nil => simp [hn, hd, hb, hc, hu, hcont]
              | cons first rest =>
                by_cases hty : first.Typ = "text"
                · simp [hn, hd, hb, hc, hu, hcont, hty]
                · simp [hn, hd, hb, hc, hu, hcont, hty]
          · simp [hn, hd, hb, hc]

/-- Claim C13: for a request that passes validation, the completion call has
the model "claude-3-haiku-20240307", max_tokens 1000 and the single message
with role "user" and the rendered prompt as content; it is the value given to
the encoder (an encoder error on it is what ProcessText reports), and every
request sent carries the encoding of exactly this call. -/
theorem C13_completion_call (env : Env) (text apiKey actionType language : String)
    (htext : TrimSpace text ≠ "") (hkey : TrimSpace apiKey ≠ "") :
    request text actionType language
      = ⟨"claude-3-haiku-20240307", 1000, [⟨"user", prompt text actionType language⟩]⟩ ∧
    (∀ err,
      env.Marshal ⟨"claude-3-haiku-20240307", 1000, [⟨"user", prompt text actionType language⟩]⟩
        = .error err →
      ProcessText env text apiKey actionType language
        = ("", some ("error marshaling request: " ++ err))) ∧
    (∀ req ∈ ProcessText.sent env text apiKey actionType language,
      ∃ jsonData req0,
        env.Marshal ⟨"claude-3-haiku-20240307", 1000, [⟨"user", prompt text actionType language⟩]⟩
          = .ok jsonData ∧
        env.NewRequest "POST" "https://api.anthropic.com/v1/messages" jsonData = .ok req0 ∧
        req = setHeaders req0 apiKey ∧ req0.Body = req.Body) := by
  have hreq : request text actionType language
      = ⟨"claude-3-haiku-20240307", 1000, [⟨"user", prompt text actionType language⟩]⟩ := rfl
  refine ⟨hreq, ?_, ?_⟩
  · intro err herr
    rw [← hreq] at herr
    simp [ProcessText, ProcessText.run, htext, hkey, herr, Outcome.returned, Sprintf_marshal]
  · intro req hmem
    rw [sent_eq env text apiKey actionType language htext hkey] at hmem
    rw [← hreq]
    cases hm : env.Marshal (request text actionType language) with
    | error e => simp [hm] at hmem
    | ok jsonData =>
      cases hn : env.NewRequest "POST" "https://api.anthropic.com/v1/messages" jsonData with
      | error e => simp [hm, hn] at hmem
      | ok req0 =>
        simp only [hm, hn, List.mem_singleton] at hmem
        exact ⟨jsonData, req0, rfl, hn, hmem, by rw [hmem]; rfl⟩

theorem C13_completion_call_witness :
    TrimSpace "Helo wrld" ≠ "" ∧ TrimSpace "sk-1" ≠ "" ∧
    request "Helo wrld" "grammar" "en"
      = ⟨"claude-3-haiku-20240307", 1000, [⟨"user", prompt "Helo wrld" "grammar" "en"⟩]⟩ :=
  ⟨by decide, by decide,
    (C13_completion_call (replyEnv 200 "ok" (.error "bad")) "Helo wrld" "sk-1" "grammar" "en"
      (by decide) (by decide)).1⟩

/-! ## Which status codes are reported as a remote error -/

/-- Claim C14, as amended: for a valid request that was answered, the failure
is of the remote-status kind exactly when the status code is not 200; other
codes of the 2xx range are reported as remote errors too. -/
theorem C14_remote_error_iff_not_200 (env : Env)
    (text apiKey actionType language body : String) (code : Int)
    (htext : TrimSpace text ≠ "") (hkey : TrimSpace apiKey ≠ "")
    (hreply : Replied env text apiKey actionType language code body) :
    (ProcessText.run env text apiKey actionType language).2.kind = some .remoteStatus
      ↔ code ≠ 200 := by
  obtain ⟨jsonData, req0, r, hm, hn, hd, hc, hb⟩ := hreply
  unfold ProcessText.run
  by_cases h200 : code = 200
  · have hs : r.StatusCode = StatusOK := by rw [hc, h200]; rfl
    cases hu : env.Unmarshal body with
    | error e => simp [htext, hkey, hm, hn, hd, hb, hs, hu, h200, Outcome.kind]
    | ok claudeResp =>
      cases hcont : claudeResp.Content with
      | nil => simp [htext, hkey, hm, hn, hd, hb, hs, hu, hcont, h200, Outcome.kind]
      | cons first rest =>
        by_cases hty : first.Typ = "text"
        · simp [htext, hkey, hm, hn, hd, hb, hs, hu, hcont, hty, h200, Outcome.kind]
        · simp [htext, hkey, hm, hn, hd, hb, hs, hu, hcont, hty, h200, Outcome.kind]
  · have hs : r.StatusCode ≠ StatusOK := by rw [hc]; exact h200
    simp [htext, hkey, hm, hn, hd, hb, hs, h200, Outcome.kind]

theorem C14_remote_error_iff_not_200_witness :
    TrimSpace "Helo wrld" ≠ "" ∧ TrimSpace "sk-1" ≠ "" ∧
    ((ProcessText.run (replyEnv 204 "" (.error "unexpected end of JSON input"))
        "Helo wrld" "sk-1" "grammar" "en").2.kind = some .remoteStatus
      ↔ (204 : Int) ≠ 200) :=
  ⟨by decide, by decide,
    C14_remote_error_iff_not_200 (replyEnv 204 "" (.error "unexpected end of JSON input"))
      "Helo wrld" "sk-1" "grammar" "en" "" 204 (by decide) (by decide)
      ⟨_, _, _, rfl, rfl, rfl, rfl, rfl⟩⟩

/-- A reply with status 201, a code of the 2xx range, and a body that would
decode to a text block: ProcessText reports a remote error. -/
theorem C14_status_201_is_remote_error :
    (200 : Int) ≤ 201 ∧ (201 : Int) < 300 ∧
    TrimSpace "Helo wrld" ≠ "" ∧ TrimSpace "sk-1" ≠ "" ∧
    Replied
      (replyEnv 201 "\x7b\"content\":[\x7b\"type\":\"text\",\"text\":\"Hello\"\x7d]\x7d"
        (.ok ⟨[⟨"Hello", "text"⟩], "", "", "", "", "", "", ⟨0, 0⟩⟩))
      "Helo wrld" "sk-1" "grammar" "en" 201 "\x7b\"content\":[\x7b\"type\":\"text\",\"text\":\"Hello\"\x7d]\x7d" ∧
    (ProcessText.run
      (replyEnv 201 "\x7b\"content\":[\x7b\"type\":\"text\",\"text\":\"Hello\"\x7d]\x7d"
        (.ok ⟨[⟨"Hello", "text"⟩], "", "", "", "", "", "", ⟨0, 0⟩⟩))
      "Helo wrld" "sk-1" "grammar" "en").2.kind = some .remoteStatus ∧
    ProcessText
      (replyEnv 201 "\x7b\"content\":[\x7b\"type\":\"text\",\"text\":\"Hello\"\x7d]\x7d"
        (.ok ⟨[⟨"Hello", "text"⟩], "", "", "", "", "", "", ⟨0, 0⟩⟩))
      "Helo wrld" "sk-1" "grammar" "en"
      = ("", some "API request failed with status 201: \x7b\"content\":[\x7b\"type\":\"text\",\"text\":\"Hello\"\x7d]\x7d") :=
  ⟨by decide, by decide, by decide, by decide, ⟨_, _, _, rfl, rfl, rfl, rfl, rfl⟩,
    by decide, by decide⟩

/-! ## Directive and template language -/

theorem template_mem (actionType language : String) :
    (language = "id" → template actionType language ∈ indonesianTemplates) ∧
    (language ≠ "id" → template actionType language ∈ englishTemplates) := by
  unfold template indonesianTemplates englishTemplates
  constructor
  · intro hl
    simp only [hl, if_true]
    split_ifs <;> simp
  · intro hl
    simp only [hl, if_false]
    split_ifs <;> simp

set_option maxRecDepth 100000 in
theorem english_not_indonesian : ∀ x ∈ englishTemplates, x ∉ indonesianTemplates := by
  decide

/-- Claim C15: every prompt is its template formatted with the language
directive as first operand, so it starts with the Indonesian directive when
language is "id" and with the US-English directive otherwise; and the
template is one of the Indonesian ones exactly when the directive is the
Indonesian one. -/
theorem C15_directive_matches_template (text actionType language : String) :
    prompt text actionType language
      = Sprintf (template actionType language) (operands text actionType language) ∧
    (language = "id" → ∃ rest, prompt text actionType language
      = "Please respond in Indonesian (Bahasa Indonesia). " ++ rest) ∧
    (language ≠ "id" → ∃ rest, prompt text actionType language
      = "Please respond in US English. " ++ rest) ∧
    (template actionType language ∈ indonesianTemplates ↔
      languageInstruction language = "Please respond in Indonesian (Bahasa Indonesia). ") := by
  have hstart : ∃ rest, prompt text actionType language
      = languageInstruction language ++ rest := by
    rw [prompt_eq_Sprintf_template]
    unfold template operands
    split_ifs
    all_goals exact ⟨_, Sprintf_str_first _ _ rfl _ _⟩
  refine ⟨prompt_eq_Sprintf_template text actionType language, ?_, ?_, ?_⟩
  · intro hl
    have hli : languageInstruction language
        = "Please respond in Indonesian (Bahasa Indonesia). " := by
      rw [hl]; rfl
    rw [← hli]; exact hstart
  · intro hl
    rw [← languageInstruction_of_ne_id language hl]; exact hstart
  · by_cases hl : language = "id"
    · have hli : languageInstruction language
          = "Please respond in Indonesian (Bahasa Indonesia). " := by
        rw [hl]; rfl
      exact ⟨fun _ => hli, fun _ => (template_mem actionType language).1 hl⟩
    · constructor
      · intro hmem
        exact absurd hmem
          (english_not_indonesian _ ((template_mem actionType language).2 hl))
      · intro hli
        rw [languageInstruction_of_ne_id language hl] at hli
        exact absurd hli (by decide)

/-! ## Purity of prompt rendering -/

/-- Claim C16: the prompt is a function of text, actionType and language alone:
equal arguments give equal prompts, the completion call carries that prompt,
and for two calls with the same text, actionType and language the bodies of
the requests sent are the same whatever the two API keys are and however the
network and the decoder answer in the two environments (the encoder and the
request constructor being the same). -/
theorem C16_prompt_pure (env₁ env₂ : Env)
    (text actionType language apiKey₁ apiKey₂ : String)
    (htext : TrimSpace text ≠ "")
    (hkey₁ : TrimSpace apiKey₁ ≠ "") (hkey₂ : TrimSpace apiKey₂ ≠ "")
    (hmarshal : env₁.Marshal = env₂.Marshal) (hnew : env₁.NewRequest = env₂.NewRequest) :
    (∀ text' actionType' language', text' = text → actionType' = actionType →
      language' = language →
      prompt text' actionType' language' = prompt text actionType language) ∧
    (request text actionType language).Messages
      = [⟨"user", prompt text actionType language⟩] ∧
    (ProcessText.sent env₁ text apiKey₁ actionType language).map (fun r => r.Body)
      = (ProcessText.sent env₂ text apiKey₂ actionType language).map (fun r => r.Body) := by
  refine ⟨?_, rfl, ?_⟩
  · intro text' actionType' language' h1 h2 h3
    rw [h1, h2, h3]
  · rw [sent_eq env₁ text apiKey₁ actionType language htext hkey₁,
      sent_eq env₂ text apiKey₂ actionType language htext hkey₂, hmarshal, hnew]
    cases hm : env₂.Marshal (request text actionType language) with
    | error e => rfl
    | ok jsonData =>
      cases hn : env₂.NewRequest "POST" "https://api.anthropic.com/v1/messages" jsonData with
      | error e => simp [hn]
      | ok req0 => simp [hn, setHeaders, HttpRequest.SetHeader]

theorem C16_prompt_pure_witness :
    (ProcessText.sent (replyEnv 200 "ok" (.error "bad")) "Helo wrld" "sk-1" "formal" "id").map
        (fun r => r.Body)
      = (ProcessText.sent (replyEnv 429 "rate limited" (.error "worse"))
          "Helo wrld" "sk-2" "formal" "id").map (fun r => r.Body) :=
  (C16_prompt_pure (replyEnv 200 "ok" (.error "bad"))
    (replyEnv 429 "rate limited" (.error "worse"))
    "Helo wrld" "formal" "id" "sk-1" "sk-2" (by decide) (by decide) (by decide) rfl rfl).2.2

/-! ## Order of the validation checks -/

theorem text_error_ne_key_error :
    ("text cannot be empty" : String) ≠ "API key is required" := by decide

/-- Claim C17: when text and apiKey are both blank the error is "text cannot be
empty"; and whenever the error is "API key is required" the text is not
blank. -/
theorem C17_text_checked_first (env : Env) (text apiKey actionType language : String) :
    (TrimSpace text = "" → TrimSpace apiKey = "" →
      ProcessText env text apiKey actionType language = ("", some "text cannot be empty")) ∧
    ((ProcessText env text apiKey actionType language).2 = some "API key is required" →
      TrimSpace text ≠ "") := by
  constructor
  · intro ht _
    rw [ProcessText, run_blank_text env text apiKey actionType language ht]
    rfl
  · intro herr ht
    rw [ProcessText, run_blank_text env text apiKey actionType language ht] at herr
    have h : Outcome.emptyText.returned.2 = some "text cannot be empty" := rfl
    rw [h] at herr
    exact text_error_ne_key_error (Option.some.inj herr)

theorem C17_text_checked_first_witness :
    TrimSpace " \n" = "" ∧ TrimSpace "\t" = "" ∧
    ProcessText (replyEnv 200 "ok" (.error "bad")) " \n" "\t" "grammar" "en"
      = ("", some "text cannot be empty") :=
  ⟨by decide, by decide,
    (C17_text_checked_first (replyEnv 200 "ok" (.error "bad")) " \n" "\t" "grammar" "en").1
      (by decide) (by decide)⟩

/-! ## The prompt tells its template -/

theorem prompt_of_ne_id (text actionType language : String) (hlang : language ≠ "id") :
    prompt text actionType language = prompt text actionType "en" := by
  have hli := languageInstruction_of_ne_id language hlang
  have hen : languageInstruction "en" = "Please respond in US English. " := by decide
  have hne : ¬ ("en" = "id") := by decide
  unfold prompt
  simp only [hlang, hne, if_false, hli, hen]

theorem take_two_append (l p r r' : List Char) (n : Nat) (h : n ≤ l.length + p.length) :
    (l ++ (p ++ r)).take n = (l ++ (p ++ r')).take n := by
  have h' : n ≤ (l ++ p).length := by simpa using h
  rw [← List.append_assoc, ← List.append_assoc, List.take_append_of_le_length h',
    List.take_append_of_le_length h']

set_option maxRecDepth 100000 in
/-- The first 51 characters of a prompt for language "id" or "en" do not depend
on the text, and depend on actionType only through the branch it selects. -/
theorem prompt_head_fixed (text actionType lang : String) (hlang : lang = "id" ∨ lang = "en") :
    (prompt text actionType lang).data.take 51
      = (prompt "" (if actionType ∈ namedActions then actionType else "") lang).data.take 51 := by
  by_cases h1 : actionType = "grammar"
  · subst h1
    rcases hlang with rfl | rfl
    · have e₁ : prompt text "grammar" "id"
          = Sprintf grammarId [.str (languageInstruction "id"), .str text] := rfl
      have e₂ : prompt "" (if "grammar" ∈ namedActions then "grammar" else "") "id"
          = Sprintf grammarId [.str (languageInstruction "id"), .str ""] := rfl
      rw [e₁, e₂, Sprintf_grammarId_quoted, Sprintf_grammarId_quoted]
      simp only [String.data_append, List.append_assoc]
      exact take_two_append _ _ _ _ 51 (by decide)
    · have e₁ : prompt text "grammar" "en"
          = Sprintf grammarEn [.str (languageInstruction "en"), .str text] := rfl
      have e₂ : prompt "" (if "grammar" ∈ namedActions then "grammar" else "") "en"
          = Sprintf grammarEn [.str (languageInstruction "en"), .str ""] := rfl
      rw [e₁, e₂, Sprintf_grammarEn_quoted, Sprintf_grammarEn_quoted]
      simp only [String.data_append, List.append_assoc]
      exact take_two_append _ _ _ _ 51 (by decide)
  by_cases h2 : actionType = "improve"
  · subst h2
    rcases hlang with rfl | rfl
    · have e₁ : prompt text "improve" "id"
          = Sprintf improveId [.str (languageInstruction "id"), .str text] := rfl
      have e₂ : prompt "" (if "improve" ∈ namedActions then "improve" else "") "id"
          = Sprintf improveId [.str (languageInstruction "id"), .str ""] := rfl
      rw [e₁, e₂, Sprintf_improveId_quoted, Sprintf_improveId_quoted]
      simp only [String.data_append, List.append_assoc]
      exact take_two_append _ _ _ _ 51 (by decide)
    · have e₁ : prompt text "improve" "en"
          = Sprintf improveEn [.str (languageInstruction "en"), .str text] := rfl
      have e₂ : prompt "" (if "improve" ∈ namedActions then "improve" else "") "en"
          = Sprintf improveEn [.str (languageInstruction "en"), .str ""] := rfl
      rw [e₁, e₂, Sprintf_improveEn_quoted, Sprintf_improveEn_quoted]
      simp only [String.data_append, List.append_assoc]
      exact take_two_append _ _ _ _ 51 (by decide)
  by_cases h3 : actionType = "rephrase"
  · subst h3
    rcases hlang with rfl | rfl
    · have e₁ : prompt text "rephrase" "id"
          = Sprintf rephraseId [.str (languageInstruction "id"), .str text] := rfl
      have e₂ : prompt "" (if "rephrase" ∈ namedActions then "rephrase" else "") "id"
          = Sprintf rephraseId [.str (languageInstruction "id"), .str ""] := rfl
      rw [e₁, e₂, Sprintf_rephraseId_quoted, Sprintf_rephraseId_quoted]
      simp only [String.data_append, List.append_assoc]
      exact take_two_append _ _ _ _ 51 (by decide)
    · have e₁ : prompt text "rephrase" "en"
          = Sprintf rephraseEn [.str (languageInstruction "en"), .str text] := rfl
      have e₂ : prompt "" (if "rephrase" ∈ namedActions then "rephrase" else "") "en"
          = Sprintf rephraseEn [.str (languageInstruction "en"), .str ""] := rfl
      rw [e₁, e₂, Sprintf_rephraseEn_quoted, Sprintf_rephraseEn_quoted]
      simp only [String.data_append, List.append_assoc]
      exact take_two_append _ _ _ _ 51 (by decide)
  by_cases h4 : actionType = "formal"
  · subst h4
    rcases hlang with rfl | rfl
    · have e₁ : prompt text "formal" "id"
          = Sprintf formalId [.str (languageInstruction "id"), .str text] := rfl
      have e₂ : prompt "" (if "formal" ∈ namedActions then "formal" else "") "id"
          = Sprintf formalId [.str (languageInstruction "id"), .str ""] := rfl
      rw [e₁, e₂, Sprintf_formalId_quoted, Sprintf_formalId_quoted]
      simp only [String.data_append, List.append_assoc]
      exact take_two_append _ _ _ _ 51 (by decide)
    · have e₁ : prompt text "formal" "en"
          = Sprintf formalEn [.str (languageInstruction "en"), .str text] := rfl
      have e₂ : prompt "" (if "formal" ∈ namedActions then "formal" else "") "en"
          = Sprintf formalEn [.str (languageInstruction "en"), .str ""] := rfl
      rw [e₁, e₂, Sprintf_formalEn_quoted, Sprintf_formalEn_quoted]
      simp only [String.data_append, List.append_assoc]
      exact take_two_append _ _ _ _ 51 (by decide)
  by_cases h5 : actionType = "detailed"
  · subst h5
    rcases hlang with rfl | rfl
    · have e₁ : prompt text "detailed" "id"
          = Sprintf detailedId [.str (languageInstruction "id"), .str text] := rfl
      have e₂ : prompt "" (if "detailed" ∈ namedActions then "detailed" else "") "id"
          = Sprintf detailedId [.str (languageInstruction "id"), .str ""] := rfl
      rw [e₁, e₂, Sprintf_detailedId_quoted, Sprintf_detailedId_quoted]
      simp only [String.data_append, List.append_assoc]
      exact take_two_append _ _ _ _ 51 (by decide)
    · have e₁ : prompt text "detailed" "en"
          = Sprintf detailedEn [.str (languageInstruction "en"), .str text] := rfl
      have e₂ : prompt "" (if "detailed" ∈ namedActions then "detailed" else "") "en"
          = Sprintf detailedEn [.str (languageInstruction "en"), .str ""] := rfl
      rw [e₁, e₂, Sprintf_detailedEn_quoted, Sprintf_detailedEn_quoted]
      simp only [String.data_append, List.append_assoc]
      exact take_two_append _ _ _ _ 51 (by decide)
  have hnot : actionType ∉ namedActions := by
    simp [namedActions, h1, h2, h3, h4, h5]
  rw [if_neg hnot]
  rcases hlang with rfl | rfl
  · have e₁ : prompt text actionType "id"
        = Sprintf customId [.str (languageInstruction "id"), .str actionType, .str text] := by
      unfold prompt
      simp only [h1, h2, h3, h4, h5, if_false, if_true]
    have e₂ : prompt "" "" "id"
        = Sprintf customId [.str (languageInstruction "id"), .str "", .str ""] := rfl
    rw [e₁, e₂, Sprintf_customId_quoted, Sprintf_customId_quoted]
    simp only [String.data_append, List.append_assoc]
    exact take_two_append _ _ _ _ 51 (by decide)
  · have hne : ¬ ("en" = "id") := by decide
    have e₁ : prompt text actionType "en"
        = Sprintf customEn [.str (languageInstruction "en"), .str actionType, .str text] := by
      unfold prompt
      simp only [h1, h2, h3, h4, h5, hne, if_false]
    have e₂ : prompt "" "" "en"
        = Sprintf customEn [.str (languageInstruction "en"), .str "", .str ""] := rfl
    rw [e₁, e₂, Sprintf_customEn_quoted, Sprintf_customEn_quoted]
    simp only [String.data_append, List.append_assoc]
    exact take_two_append _ _ _ _ 51 (by decide)

set_option maxRecDepth 100000 in
theorem prompt_heads_distinct :
    ∀ a₁ ∈ "" :: namedActions, ∀ a₂ ∈ "" :: namedActions,
    ∀ l₁ ∈ ["id", "en"], ∀ l₂ ∈ ["id", "en"],
      (prompt "" a₁ l₁).data.take 51 = (prompt "" a₂ l₂).data.take 51 → a₁ = a₂ ∧ l₁ = l₂ := by
  decide

/-- Equal prompts come from the same branch of the switch on actionType and
from the same language variant. -/
theorem prompt_eq_same_branch (t₁ t₂ a₁ a₂ l₁ l₂ : String)
    (h : prompt t₁ a₁ l₁ = prompt t₂ a₂ l₂) :
    (if a₁ ∈ namedActions then a₁ else "") = (if a₂ ∈ namedActions then a₂ else "") ∧
    (if l₁ = "id" then "id" else "en") = (if l₂ = "id" then "id" else "en") := by
  have norm : ∀ t a l : String, prompt t a l = prompt t a (if l = "id" then "id" else "en") := by
    intro t a l
    by_cases hl : l = "id"
    · rw [if_pos hl, hl]
    · rw [if_neg hl]; exact prompt_of_ne_id t a l hl
  have hlmem : ∀ l : String, (if l = "id" then "id" else "en") ∈ ["id", "en"] := by
    intro l; by_cases hl : l = "id" <;> simp [hl]
  have hlor : ∀ l : String, (if l = "id" then "id" else "en") = "id" ∨
      (if l = "id" then "id" else "en") = "en" := by
    intro l; by_cases hl : l = "id" <;> simp [hl]
  have hamem : ∀ a : String, (if a ∈ namedActions then a else "") ∈ "" :: namedActions := by
    intro a; by_cases ha : a ∈ namedActions <;> simp [ha]
  rw [norm t₁ a₁ l₁, norm t₂ a₂ l₂] at h
  have hk := congrArg (fun p : String => p.data.take 51) h
  simp only [] at hk
  rw [prompt_head_fixed t₁ a₁ _ (hlor l₁), prompt_head_fixed t₂ a₂ _ (hlor l₂)] at hk
  exact prompt_heads_distinct _ (hamem a₁) _ (hamem a₂) _ (hlmem l₁) _ (hlmem l₂) hk

/-- Claim C18: prompts rendered from different templates are different, whatever
the texts and languages are (two different named actions, or a named action
and a free-form actionType); and a prompt rendered for language "id" is
different from every prompt rendered for another language. -/
theorem C18_prompt_identifies_template (t₁ t₂ a₁ a₂ l₁ l₂ : String) :
    ((a₁ ∈ namedActions ∧ a₂ ∈ namedActions ∧ a₁ ≠ a₂) ∨
      (a₁ ∈ namedActions ∧ a₂ ∉ namedActions) ∨
      (a₁ ∉ namedActions ∧ a₂ ∈ namedActions) →
      prompt t₁ a₁ l₁ ≠ prompt t₂ a₂ l₂) ∧
    (l₁ = "id" → l₂ ≠ "id" → prompt t₁ a₁ l₁ ≠ prompt t₂ a₂ l₂) := by
  have hempty : "" ∉ namedActions := by decide
  constructor
  · intro hdiff heq
    have hsame := (prompt_eq_same_branch t₁ t₂ a₁ a₂ l₁ l₂ heq).1
    rcases hdiff with ⟨h₁, h₂, hne⟩ | ⟨h₁, h₂⟩ | ⟨h₁, h₂⟩
    · rw [if_pos h₁, if_pos h₂] at hsame
      exact hne hsame
    · rw [if_pos h₁, if_neg h₂] at hsame
      exact hempty (hsame ▸ h₁)
    · rw [if_neg h₁, if_pos h₂] at hsame
      exact hempty (hsame ▸ h₂)
  · intro h₁ h₂ heq
    have hsame := (prompt_eq_same_branch t₁ t₂ a₁ a₂ l₁ l₂ heq).2
    rw [if_pos h₁, if_neg h₂] at hsame
    exact absurd hsame (by decide)

theorem C18_prompt_identifies_template_witness :
    "formal" ∈ namedActions ∧ "rephrase" ∈ namedActions ∧ "formal" ≠ "rephrase" ∧
    prompt "Helo wrld" "formal" "en" ≠ prompt "Helo wrld" "rephrase" "fr" :=
  ⟨by decide, by decide, by decide,
    (C18_prompt_identifies_template "Helo wrld" "Helo wrld" "formal" "rephrase" "en" "fr").1
      (Or.inl ⟨by decide, by decide, by decide⟩)⟩

/-! ## The free-form prompt does not tell instruction and text apart -/

set_option maxRecDepth 100000 in
/-- Claim C19: on the free-form path the prompt does not determine actionType
and text: for language "en" the instruction "Fix" followed by the separator
and "A" with text "B", and the instruction "Fix" with text "A" followed by the
separator and "B", are two pairs with different actionTypes and different
texts, both actionTypes unrecognized and both texts non-blank, that render
the same prompt. -/
theorem C19_free_form_not_injective :
    ∃ language a₁ t₁ a₂ t₂,
      language = "en" ∧
      a₁ = "Fix\n\nText to process:\n\"A" ∧ t₁ = "B" ∧
      a₂ = "Fix" ∧ t₂ = "A\n\nText to process:\n\"B" ∧
      a₁ ≠ a₂ ∧ t₁ ≠ t₂ ∧ a₁ ∉ namedActions ∧ a₂ ∉ namedActions ∧
      TrimSpace t₁ ≠ "" ∧ TrimSpace t₂ ≠ "" ∧
      prompt t₁ a₁ language = prompt t₂ a₂ language :=
  ⟨"en", "Fix\n\nText to process:\n\"A", "B", "Fix", "A\n\nText to process:\n\"B",
    rfl, rfl, rfl, rfl, rfl,
    by decide, by decide, by decide, by decide, by decide, by decide, by decide⟩

end OpenGrammar
